import Mathlib

/-!
Shallow embedding of the APL dashboard valuation and recommendation
engine (the Python scripts `update_combined_data.py`,
`generate_auction_guide.py`, `generate_auction_top_picks.py`,
`clean_processed_data.py`, `combine_apl_data.py` and
`waterfall_dashboard.py`).  Numeric fields are modelled over `ℚ`;
nullable numeric fields (pandas `NaN`) over `Option ℚ`.  The Python
`round` (round half to even, as `numpy`/`pandas` also do) is modelled
by `pythonRound` / `roundTo`.
-/

/-- The Python `round` to the nearest integer, ties to even (bankers
rounding), on exact rationals. -/
def pythonRound (q : ℚ) : ℤ :=
  let f := ⌊q⌋
  let frac := q - (f : ℚ)
  if frac < 1/2 then f
  else if 1/2 < frac then f + 1
  else if Even f then f else f + 1

/-- The Python `round(q, n)`: round to `n` decimal places, ties to even. -/
def roundTo (n : ℕ) (q : ℚ) : ℚ :=
  (pythonRound (q * (10 : ℚ) ^ n) : ℚ) / (10 : ℚ) ^ n

/-- Models a pandas/Python comparison `v > t` where `v` may be `NaN`
(`none`): any comparison against `NaN` is `False`. -/
def nanGt (v : Option ℚ) (t : ℚ) : Bool :=
  match v with
  | none => false
  | some x => decide (t < x)

/-! ## `clean_processed_data.py` and `combine_apl_data.py` -/

/-- `calculate_value` from `src/clean_processed_data.py` (lines 72-77).
A missing (`NaN`) price is not caught by the `Price == 0` test; the
division then produces `NaN`, modelled as `none`. -/
def calculate_value (price : Option ℚ) (tier : ℚ) : Option ℚ :=
  if price = some 0 then some 0
  else
    match price with
    | none => none
    | some p =>
      let tier_multiplier := 5 - tier
      some (roundTo 2 ((tier_multiplier * 10) / p))

/-- `calculate_value_rating` from `src/combine_apl_data.py` (lines 36-40):
identical formula, but a missing price is caught by `pd.isna` and also
returns `0`. -/
def calculate_value_rating (price : Option ℚ) (tier : ℚ) : Option ℚ :=
  if price = some 0 ∨ price = none then some 0
  else
    match price with
    | none => some 0
    | some p =>
      let tier_multiplier := 5 - tier
      some (roundTo 2 ((tier_multiplier * 10) / p))

/-! ## Row-wise derivations of `update_combined_data.py` -/

/-- `calculate_tier_movement` from `src/update_combined_data.py`
(lines 71-80): `0` for players without history, `Tier −
Historical_Avg_Tier` for latest-edition (`"APL 8.0"`) rows, `0` for
rows of every other edition. -/
def calculate_tier_movement (editionCount : ℤ) (edition : String)
    (historicalAvgTier tier : ℚ) : ℚ :=
  if editionCount ≤ 1 then 0
  else if edition = "APL 8.0" then tier - historicalAvgTier
  else 0

/-- `calculate_value_proposition` from `src/update_combined_data.py`
(lines 86-110). -/
def calculate_value_proposition (edition : String) (valueRating tierMovement : ℚ)
    (editionCount : ℤ) (priceVarianceFromAvg : ℚ) : Option ℚ :=
  if edition ≠ "APL 8.0" then none
  else
    let base_score := valueRating
    let tier_factor : ℚ :=
      if tierMovement < 0 then 1.2
      else if 0 < tierMovement then 0.8
      else 1.0
    let price_factor : ℚ :=
      if 1 < editionCount then
        if priceVarianceFromAvg < 0 then 1.2
        else if 0 < priceVarianceFromAvg then 0.8
        else 1.0
      else 1.0
    some (roundTo 2 (base_score * tier_factor * price_factor))

/-- `recommend_price` from `src/update_combined_data.py` (lines 128-153). -/
def recommend_price (edition : String) (price : ℚ) (editionCount : ℤ)
    (historicalAvgPrice tierMovement : ℚ) : Option ℚ :=
  if edition ≠ "APL 8.0" then none
  else
    let base_price := price
    if 1 < editionCount then
      let historical_weight := min (0.3 : ℚ) (0.1 * (editionCount : ℚ))
      let current_weight := 1 - historical_weight
      let blended_price := current_weight * base_price + historical_weight * historicalAvgPrice
      let blended_price :=
        if tierMovement < 0 then
          let tier_bonus := |tierMovement| * 5
          blended_price * (1 + tier_bonus / 100)
        else if 0 < tierMovement then
          let tier_penalty := tierMovement * 5
          blended_price * (1 - tier_penalty / 100)
        else blended_price
      some ((pythonRound blended_price : ℤ) : ℚ)
    else
      some base_price

/-! ## The table-level pipeline of `update_combined_data.py`

A row of the base table `apl_historical_data.csv` carries the columns
the derivation steps read: `Player Name`, `Edition`, `Tier`, `Price`,
`Ranking`, `Edition Count`, `Value Rating`. -/

structure BaseRow where
  playerName : String
  edition : String
  tier : ℚ
  price : ℚ
  ranking : ℚ
  editionCount : ℤ
  valueRating : ℚ
  deriving DecidableEq, Repr

/-- Minimum of a list of rationals (`none` on the empty list), as the
pandas `groupby(...).min()` computes it. -/
def qmin (l : List ℚ) : Option ℚ :=
  match l with
  | [] => none
  | x :: xs => some (xs.foldl min x)

/-- All rows of the table for one player name: the `groupby` on `Player Name`
group (lines 29-33 of `src/update_combined_data.py`). -/
def playerRows (t : List BaseRow) (name : String) : List BaseRow :=
  t.filter (fun r => r.playerName == name)

/-- `Historical_Avg_Price`: mean price over the rows of the player, rounded
to one decimal (lines 29-52). -/
def historical_Avg_Price (t : List BaseRow) (name : String) : ℚ :=
  let ps := (playerRows t name).map (·.price)
  roundTo 1 (ps.sum / (ps.length : ℚ))

/-- `Historical_Avg_Tier`: mean tier over the rows of the player, rounded to
one decimal (lines 29-53). -/
def historical_Avg_Tier (t : List BaseRow) (name : String) : ℚ :=
  let ts := (playerRows t name).map (·.tier)
  roundTo 1 (ts.sum / (ts.length : ℚ))

/-- `Historical_Min_Price` (lines 29-49); `0` stands for the impossible
empty group. -/
def historical_Min_Price (t : List BaseRow) (name : String) : ℚ :=
  ((qmin ((playerRows t name).map (·.price))).getD 0)

/-- `Historical_Max_Price` (lines 29-49). -/
def historical_Max_Price (t : List BaseRow) (name : String) : ℚ :=
  ((qmin ((playerRows t name).map (fun r => -r.price))).getD 0) * (-1)

/-- `Tier_Min_Ranking`: the minimum `Ranking` among latest-edition
(`"APL 8.0"`) rows of a given tier (lines 115-117); `none` models the
`NaN` a left merge puts on tiers with no latest-edition row. -/
def tier_Min_Ranking (t : List BaseRow) (tier : ℚ) : Option ℚ :=
  qmin ((t.filter (fun r => r.edition == "APL 8.0" && r.tier == tier)).map (·.ranking))

/-- The `Is_Tier_Top` lambda (lines 118-121): latest-edition rows whose
ranking is within `2` of the minimum ranking of their tier; `False` for all
other editions (and under a `NaN` minimum, since a pandas comparison
with `NaN` is `False`). -/
def is_Tier_Top (t : List BaseRow) (r : BaseRow) : Bool :=
  if r.edition == "APL 8.0" then
    match tier_Min_Ranking t r.tier with
    | some m => decide (r.ranking ≤ m + 2)
    | none => false
  else false

/-- A row of the output table `apl_master_data.csv`: the base columns
plus the derived columns of steps 1-9 (the `Export_Date` and
`Data_Version` metadata of step 8 are not modelled). -/
structure FullRow where
  base : BaseRow
  inLatestEdition : Bool
  historicalAvgPrice : ℚ
  historicalMinPrice : ℚ
  historicalMaxPrice : ℚ
  historicalAvgTier : ℚ
  priceVarianceFromAvg : ℚ
  tierMovement : ℚ
  valueProposition : Option ℚ
  isTierTop : Bool
  recommendedPrice : Option ℚ
  deriving DecidableEq, Repr

/-- One row of the derivation pipeline of `src/update_combined_data.py`
(steps 1-9, lines 22-155): all derived columns as functions of the base
table and the base columns of the row. -/
def deriveRow (t : List BaseRow) (r : BaseRow) : FullRow :=
  let hap := historical_Avg_Price t r.playerName
  let hat := historical_Avg_Tier t r.playerName
  let pv := if 1 < r.editionCount then r.price - hap else 0
  let tm := calculate_tier_movement r.editionCount r.edition hat r.tier
  { base := r
    inLatestEdition := r.edition == "APL 8.0"
    historicalAvgPrice := hap
    historicalMinPrice := historical_Min_Price t r.playerName
    historicalMaxPrice := historical_Max_Price t r.playerName
    historicalAvgTier := hat
    priceVarianceFromAvg := pv
    tierMovement := tm
    valueProposition := calculate_value_proposition r.edition r.valueRating tm r.editionCount pv
    isTierTop := is_Tier_Top t r
    recommendedPrice := recommend_price r.edition r.price r.editionCount hap tm }

/-- `updated_df`: the whole derivation pipeline applied row-wise to the
base table. -/
def updated_df (t : List BaseRow) : List FullRow :=
  t.map (deriveRow t)

/-! ## `generate_auction_guide.py` -/

/-- The `Auction_Priority` lambda from `src/generate_auction_guide.py`
(lines 26-30).  `Value_Proposition` read from the CSV may be `NaN`
(`none`); the pandas comparisons then evaluate to `False`. -/
def auction_Priority (isTierTop : Bool) (valueProposition : Option ℚ) : String :=
  if isTierTop || nanGt valueProposition 1.5 then "High"
  else if nanGt valueProposition 1.0 then "Medium"
  else "Low"

/-! ## `generate_auction_top_picks.py` -/

/-- `calculate_auction_score` from `src/generate_auction_top_picks.py`
(lines 13-31). -/
def calculate_auction_score (valueScore tier : ℚ) (aplEditions : ℤ)
    (topInTier : Bool) : ℚ :=
  let base_score := valueScore * 5
  let tier_factor := (5 - tier) / 4
  let history_factor : ℚ := if 1 < aplEditions then 1.1 else 1.0
  let history_factor := if topInTier then history_factor * 1.2 else history_factor
  let final_score := base_score * tier_factor * history_factor
  roundTo 1 final_score

/-! ## `waterfall_dashboard.py` -/

/-- `calculate_max_bid` from `src/waterfall_dashboard.py` (lines 183-196).
Note: no clamping of the multiplier is performed. -/
def calculate_max_bid (remaining_budget : ℚ) (players_needed : ℤ)
    (player_value : ℚ) (is_high_priority : Bool) : ℚ :=
  let avg_per_player := if 0 < players_needed then remaining_budget / (players_needed : ℚ) else 0
  let max_bid :=
    if is_high_priority then avg_per_player * (1.5 + (player_value - 1) * 0.5)
    else avg_per_player * (1 + (player_value - 1) * 0.3)
  min max_bid remaining_budget

/-! ## Theorems -/

/-- Claim C4 (amended): `computeTierMovement` returns `0` when
`editionCount ≤ 1`, returns `0` for every record whose edition is not
the latest ("APL 8.0"), and returns `currentTier − historicalAvgTier`
for latest-edition records with `editionCount > 1`. -/
theorem calculate_tier_movement_spec (ec : ℤ) (ed : String) (hat t : ℚ) :
    (ec ≤ 1 → calculate_tier_movement ec ed hat t = 0) ∧
    (ed ≠ "APL 8.0" → calculate_tier_movement ec ed hat t = 0) ∧
    (1 < ec → calculate_tier_movement ec "APL 8.0" hat t = t - hat) := by
  refine ⟨fun h => by simp [calculate_tier_movement, h],
          fun h => by simp [calculate_tier_movement, h],
          fun h => by simp [calculate_tier_movement, show ¬ ec ≤ 1 by omega]⟩

/-- Claim C4, witness: the amended theorem applied at concrete inputs. -/
theorem calculate_tier_movement_spec_witness :
    calculate_tier_movement 2 "APL 8.0" 2 1 = 1 - 2 ∧
    calculate_tier_movement 0 "APL 7.0" 5 3 = 0 :=
  ⟨(calculate_tier_movement_spec 2 "APL 8.0" 2 1).2.2 (by norm_num),
   (calculate_tier_movement_spec 0 "APL 7.0" 5 3).1 (by norm_num)⟩

/-- Claim C4, counterexample: for a record with `editionCount = 2` of a
non-latest edition ("APL 7.0"), `currentTier = 1` and
`historicalAvgTier = 2`, the code returns `0`, not
`currentTier − historicalAvgTier = −1` as the claim states. -/
theorem calculate_tier_movement_counterexample :
    calculate_tier_movement 2 "APL 7.0" 2 1 = 0 ∧ (0 : ℚ) ≠ 1 - 2 := by
  constructor
  · simp [calculate_tier_movement, show "APL 7.0" ≠ "APL 8.0" from by decide]
  · norm_num

/-- Claim C5: `classifyAuctionPriority` returns "High" exactly when
`isTierTop` is true or `valueProposition > 1.5`, "Medium" exactly when
it is not High and `valueProposition > 1.0`, and "Low" otherwise; in
particular `(False, 1.6)` gives High, `(False, 1.2)` gives Medium and
`(False, 0.5)` gives Low. -/
theorem auction_Priority_spec (b : Bool) (vp : ℚ) :
    (auction_Priority b (some vp) = "High" ↔ (b = true ∨ 1.5 < vp)) ∧
    (auction_Priority b (some vp) = "Medium" ↔ (¬(b = true ∨ 1.5 < vp) ∧ 1.0 < vp)) ∧
    (auction_Priority b (some vp) = "Low" ↔ (¬(b = true ∨ 1.5 < vp) ∧ ¬ 1.0 < vp)) ∧
    auction_Priority false (some 1.6) = "High" ∧
    auction_Priority false (some 1.2) = "Medium" ∧
    auction_Priority false (some 0.5) = "Low" := by
  refine ⟨?_, ?_, ?_, ?_, ?_, ?_⟩ <;>
    simp only [auction_Priority, nanGt] <;>
    cases b <;>
    · split_ifs <;> simp_all <;> norm_num at *

/-- Claim C10: a missing (`NaN`) `Value_Proposition` together with a
false `Is_Tier_Top` flag classifies as "Low": both pandas threshold
comparisons against `NaN` are `False` rather than an error. -/
theorem auction_Priority_missing_low :
    auction_Priority false none = "Low" ∧
    nanGt none 1.5 = false ∧ nanGt none 1.0 = false :=
  ⟨rfl, rfl, rfl⟩

/-- Claim C6: `computeAuctionScore` is
`round(base × tierFactor × historyFactor, 1)` with `base = valueScore × 5`,
`tierFactor = (5 − tier)/4`, `historyFactor = 1.1` when
`editionCount > 1` else `1.0`, multiplied further by `1.2` when
`isTierTop`. -/
theorem calculate_auction_score_spec (vs t : ℚ) (ec : ℤ) (top : Bool) :
    calculate_auction_score vs t ec top =
      roundTo 1 ((vs * 5) * ((5 - t) / 4) *
        ((if 1 < ec then 1.1 else 1.0) * (if top then 1.2 else 1.0))) := by
  simp only [calculate_auction_score]
  cases top <;> split_ifs <;> norm_num

/-- Claim C2: `computeValueProposition` is null off the latest edition,
and on it equals `round(valueRating × tierFactor × priceFactor, 2)` with
the tier factor decided by the sign of `tierMovement` and the price
factor (only when `editionCount > 1`) by the sign of the price variance
from the historical average. -/
theorem calculate_value_proposition_spec (vr tm pv : ℚ) (ec : ℤ) :
    (∀ ed, ed ≠ "APL 8.0" → calculate_value_proposition ed vr tm ec pv = none) ∧
    calculate_value_proposition "APL 8.0" vr tm ec pv =
      some (roundTo 2 (vr *
        (if tm < 0 then 1.2 else if 0 < tm then 0.8 else 1.0) *
        (if 1 < ec then (if pv < 0 then 1.2 else if 0 < pv then 0.8 else 1.0)
         else 1.0))) := by
  constructor
  · intro ed hed
    simp [calculate_value_proposition, hed]
  · simp [calculate_value_proposition]

/-- Claim C2, witness: the example of the spec,
`computeValueProposition(1.0, −1, −5, 2) = 1.44`, and nullity off the
latest edition. -/
theorem calculate_value_proposition_spec_witness :
    calculate_value_proposition "APL 7.0" 1 (-1) 2 (-5) = none ∧
    calculate_value_proposition "APL 8.0" 1 (-1) 2 (-5) = some 1.44 := by
  constructor
  · exact (calculate_value_proposition_spec 1 (-1) (-5) 2).1 "APL 7.0" (by simp)
  · rw [(calculate_value_proposition_spec 1 (-1) (-5) 2).2]
    norm_num [roundTo, pythonRound]

/-- Claim C1: `recommendPrice` is null off the latest edition; on the
latest edition it returns the current price unchanged when
`editionCount ≤ 1`, and otherwise rounds the blend
`(1 − w) × currentPrice + w × historicalAvgPrice` with
`w = min(0.3, 0.1 × editionCount)`, multiplied by
`1 + 0.05 × |tierMovement|` when `tierMovement < 0`, by
`1 − 0.05 × tierMovement` when `tierMovement > 0`, and unadjusted when
`tierMovement = 0`. -/
theorem recommend_price_spec (p h tm : ℚ) (ec : ℤ) :
    (∀ ed, ed ≠ "APL 8.0" → recommend_price ed p ec h tm = none) ∧
    (ec ≤ 1 → recommend_price "APL 8.0" p ec h tm = some p) ∧
    (1 < ec → tm < 0 → recommend_price "APL 8.0" p ec h tm =
      some ((pythonRound (((1 - min 0.3 (0.1 * (ec : ℚ))) * p +
        min 0.3 (0.1 * (ec : ℚ)) * h) * (1 + 0.05 * |tm|)) : ℤ))) ∧
    (1 < ec → 0 < tm → recommend_price "APL 8.0" p ec h tm =
      some ((pythonRound (((1 - min 0.3 (0.1 * (ec : ℚ))) * p +
        min 0.3 (0.1 * (ec : ℚ)) * h) * (1 - 0.05 * tm)) : ℤ))) ∧
    (1 < ec → tm = 0 → recommend_price "APL 8.0" p ec h tm =
      some ((pythonRound ((1 - min 0.3 (0.1 * (ec : ℚ))) * p +
        min 0.3 (0.1 * (ec : ℚ)) * h) : ℤ))) := by
  refine ⟨fun ed hed => by simp [recommend_price, hed], ?_, ?_, ?_, ?_⟩
  · intro h1
    simp [recommend_price, show ¬ (1 < ec) by omega]
  · intro h1 htm
    simp only [recommend_price, ne_eq, not_true_eq_false, if_false, if_pos h1, if_pos htm]
    congr 2
    ring_nf
  · intro h1 htm
    simp only [recommend_price, ne_eq, not_true_eq_false, if_false, if_pos h1,
      if_neg (show ¬ tm < 0 by linarith), if_pos htm]
    congr 2
    ring_nf
  · intro h1 htm
    simp only [recommend_price, ne_eq, not_true_eq_false, if_false, if_pos h1,
      if_neg (show ¬ tm < 0 by simp [htm]), if_neg (show ¬ 0 < tm by simp [htm])]
    rfl

/-- Claim C1, witness: the example of the spec,
`recommendPrice(20, 10, −1, 3) = 18`, the new-player case and the
non-latest-edition case. -/
theorem recommend_price_spec_witness :
    recommend_price "APL 8.0" 20 3 10 (-1) = some 18 ∧
    recommend_price "APL 8.0" 20 1 10 (-1) = some 20 ∧
    recommend_price "APL 7.0" 20 3 10 (-1) = none := by
  refine ⟨?_, ?_, ?_⟩
  · rw [(recommend_price_spec 20 10 (-1) 3).2.2.1 (by norm_num) (by norm_num)]
    norm_num [pythonRound, min_def]
  · exact (recommend_price_spec 20 10 (-1) 1).2.1 (by norm_num)
  · exact (recommend_price_spec 20 10 (-1) 3).1 "APL 7.0" (by simp)

/-- Claim C3 (amended): `calculate_max_bid` returns
`min(avgPerPlayer × m, remainingBudget)` with
`avgPerPlayer = remainingBudget / playersNeeded` (`0` when
`playersNeeded ≤ 0`) and `m = 1.5 + (valueScore − 1) × 0.5` when high
priority, else `m = 1 + (valueScore − 1) × 0.3`; the multiplier is not
clamped, but the result is nonnegative whenever the remaining budget
and the value score are nonnegative. -/
theorem calculate_max_bid_spec (rb pv : ℚ) (pn : ℤ) (hp : Bool) :
    calculate_max_bid rb pn pv hp =
      min ((if 0 < pn then rb / (pn : ℚ) else 0) *
        (if hp then 1.5 + (pv - 1) * 0.5 else 1 + (pv - 1) * 0.3)) rb ∧
    (0 ≤ rb → 0 ≤ pv → 0 ≤ calculate_max_bid rb pn pv hp) := by
  have hdef : calculate_max_bid rb pn pv hp =
      min ((if 0 < pn then rb / (pn : ℚ) else 0) *
        (if hp then 1.5 + (pv - 1) * 0.5 else 1 + (pv - 1) * 0.3)) rb := by
    simp only [calculate_max_bid]
    cases hp <;> simp
  refine ⟨hdef, fun hrb hpv => ?_⟩
  rw [hdef]
  have havg : 0 ≤ (if 0 < pn then rb / (pn : ℚ) else 0) := by
    split_ifs with hpn
    · exact div_nonneg hrb (by exact_mod_cast hpn.le)
    · exact le_refl 0
  have hm : 0 ≤ (if hp then 1.5 + (pv - 1) * 0.5 else 1 + (pv - 1) * 0.3) := by
    split_ifs <;> linarith
  exact le_min (mul_nonneg havg hm) hrb

/-- Claim C3, witness: the example of the spec,
`maximumAffordableBid(50, 5, 2.0, True) = 20`, and its nonnegativity. -/
theorem calculate_max_bid_spec_witness :
    calculate_max_bid 50 5 2 true = 20 ∧ 0 ≤ calculate_max_bid 50 5 2 true := by
  constructor
  · rw [(calculate_max_bid_spec 50 2 5 true).1]
    norm_num [min_def]
  · exact (calculate_max_bid_spec 50 2 5 true).2 (by norm_num) (by norm_num)

/-- Claim C3, counterexample: with remaining budget `50`, `5` players
needed, value score `−3` and high priority, the multiplier
`1.5 + (−3 − 1) × 0.5 = −0.5` is not clamped and the returned bid is
`−5 < 0`, refuting "the result is never negative". -/
theorem calculate_max_bid_counterexample :
    calculate_max_bid 50 5 (-3) true = -5 ∧ calculate_max_bid 50 5 (-3) true < 0 := by
  have : calculate_max_bid 50 5 (-3) true = -5 := by
    simp only [calculate_max_bid]
    norm_num [min_def]
  exact ⟨this, by rw [this]; norm_num⟩

/-- Claim C7 (amended): for a present price, both implementations of the
value-rating formula agree: `0` at price `0`, and
`round((5 − tier) × 10 / price, 2)` for positive price; on a missing
price the combining script returns `0` while the cleaning script
propagates the missing value. -/
theorem value_rating_spec (t p : ℚ)
    (ht : t = 1 ∨ t = 2 ∨ t = 3 ∨ t = 4) (hp : 0 ≤ p) :
    (p = 0 → calculate_value (some p) t = some 0 ∧
      calculate_value_rating (some p) t = some 0) ∧
    (0 < p → calculate_value (some p) t = some (roundTo 2 ((5 - t) * 10 / p)) ∧
      calculate_value_rating (some p) t = some (roundTo 2 ((5 - t) * 10 / p))) ∧
    calculate_value_rating none t = some 0 ∧
    calculate_value none t = none := by
  refine ⟨fun hz => ?_, fun hpos => ?_, rfl, rfl⟩
  · subst hz
    exact ⟨rfl, rfl⟩
  · have hne : p ≠ 0 := ne_of_gt hpos
    constructor
    · simp [calculate_value, hne]
    · simp [calculate_value_rating, hne]

/-- Claim C7, witness: the amended theorem applied at tier `1`,
price `20` (rating `2.0`) and price `0` (rating `0`). -/
theorem value_rating_spec_witness :
    calculate_value (some 20) 1 = some 2 ∧
    calculate_value_rating (some 20) 1 = some 2 ∧
    calculate_value (some 0) 1 = some 0 := by
  have h := (value_rating_spec 1 20 (Or.inl rfl) (by norm_num)).2.1 (by norm_num)
  have hz := ((value_rating_spec 1 0 (Or.inl rfl) (by norm_num)).1 rfl).1
  have hval : roundTo 2 ((5 - (1:ℚ)) * 10 / 20) = 2 := by
    norm_num [roundTo, pythonRound]
  exact ⟨by rw [h.1, hval], by rw [h.2, hval], hz⟩

/-- Claim C7, counterexample: on a missing price the cleaning script
(`calculate_value`) yields a missing value rating, not the `0` the
combining script (`calculate_value_rating`) yields, so the two
implementations do not satisfy one definition on missing prices. -/
theorem value_rating_missing_counterexample :
    calculate_value none 1 = none ∧
    calculate_value_rating none 1 = some 0 ∧
    (none : Option ℚ) ≠ some 0 := by
  refine ⟨rfl, rfl, by simp⟩

/-! ## Lemmas about list minima, for the tier-top flag -/

theorem foldl_min_le_init (xs : List ℚ) (a : ℚ) : xs.foldl min a ≤ a := by
  induction xs generalizing a with
  | nil => exact le_refl a
  | cons y ys ih => exact le_trans (ih (min a y)) (min_le_left a y)

theorem foldl_min_le_mem (xs : List ℚ) (a x : ℚ) (hx : x ∈ xs) :
    xs.foldl min a ≤ x := by
  induction xs generalizing a with
  | nil => cases hx
  | cons y ys ih =>
    rcases List.mem_cons.mp hx with rfl | hmem
    · exact le_trans (foldl_min_le_init ys (min a x)) (min_le_right a x)
    · exact ih _ hmem

theorem qmin_le (l : List ℚ) (x : ℚ) (hx : x ∈ l) :
    ∃ m, qmin l = some m ∧ m ≤ x := by
  cases l with
  | nil => cases hx
  | cons a xs =>
    refine ⟨xs.foldl min a, rfl, ?_⟩
    rcases List.mem_cons.mp hx with rfl | hmem
    · exact foldl_min_le_init xs x
    · exact foldl_min_le_mem xs a x hmem

/-- Modelled from the spec: "top 3 by ranking within tier for the
current edition" — a latest-edition record is among the top 3 by
ranking within its tier when fewer than 3 latest-edition records of the
same tier have a strictly smaller ranking.  Stated only to compare with
the `Is_Tier_Top` flag the code computes. -/
def isAmongTop3ByRanking (t : List BaseRow) (r : BaseRow) : Bool :=
  r.edition == "APL 8.0" &&
    decide ((t.filter (fun s => s.edition == "APL 8.0" && s.tier == r.tier &&
      decide (s.ranking < r.ranking))).length < 3)

/-- Claim C8 (amended): the tier-top flag is false for every record off
the latest edition; for a latest-edition record of the table it holds
exactly when the ranking is within `2` of the minimum ranking of the
tier among latest-edition records (which coincides with "top 3 by
ranking" only when the rankings within the tier are consecutive). -/
theorem is_Tier_Top_spec (t : List BaseRow) (r : BaseRow) :
    (r.edition ≠ "APL 8.0" → is_Tier_Top t r = false) ∧
    (r ∈ t → r.edition = "APL 8.0" →
      ∃ m, tier_Min_Ranking t r.tier = some m ∧ m ≤ r.ranking ∧
        (is_Tier_Top t r = true ↔ r.ranking ≤ m + 2)) := by
  constructor
  · intro hed
    simp [is_Tier_Top, hed]
  · intro hr hed
    have hmem : r.ranking ∈
        (t.filter (fun s => s.edition == "APL 8.0" && s.tier == r.tier)).map
          (·.ranking) := by
      refine List.mem_map_of_mem _ (List.mem_filter.mpr ⟨hr, ?_⟩)
      simp [hed]
    obtain ⟨m, hm, hle⟩ := qmin_le _ _ hmem
    have hm' : tier_Min_Ranking t r.tier = some m := hm
    refine ⟨m, hm', hle, ?_⟩
    simp [is_Tier_Top, hed, hm']

/-- Claim C8, witness: the amended theorem applied to a concrete
three-row table. -/
theorem is_Tier_Top_spec_witness :
    is_Tier_Top [⟨"A", "APL 8.0", 1, 30, 1, 1, 1⟩]
      ⟨"A", "APL 8.0", 1, 30, 1, 1, 1⟩ = true ∧
    is_Tier_Top [⟨"A", "APL 7.0", 1, 30, 1, 1, 1⟩]
      ⟨"A", "APL 7.0", 1, 30, 1, 1, 1⟩ = false := by
  constructor
  · obtain ⟨m, hm, hle, hiff⟩ :=
      (is_Tier_Top_spec [⟨"A", "APL 8.0", 1, 30, 1, 1, 1⟩]
        ⟨"A", "APL 8.0", 1, 30, 1, 1, 1⟩).2 (List.mem_singleton.mpr rfl) rfl
    have hm1 : m = 1 := by
      have : tier_Min_Ranking [⟨"A", "APL 8.0", 1, 30, 1, 1, 1⟩] 1 = some 1 := by
        simp [tier_Min_Ranking, qmin, List.filter]
      rw [this] at hm
      exact (Option.some_injective ℚ hm).symm
    exact hiff.mpr (by rw [hm1]; norm_num)
  · exact (is_Tier_Top_spec [⟨"A", "APL 7.0", 1, 30, 1, 1, 1⟩]
      ⟨"A", "APL 7.0", 1, 30, 1, 1, 1⟩).1 (by simp)

/-- Claim C8, counterexample: in a latest-edition tier with rankings
`1`, `5`, `6`, the player ranked `5` is among the top 3 by ranking
within the tier, yet the code computes `Is_Tier_Top = False` for them
(`5 ≤ 1 + 2` fails), so the flag is not "top 3 by ranking within tier". -/
theorem is_Tier_Top_counterexample :
    isAmongTop3ByRanking
      [⟨"A", "APL 8.0", 1, 30, 1, 1, 1⟩, ⟨"B", "APL 8.0", 1, 25, 5, 1, 1⟩,
       ⟨"C", "APL 8.0", 1, 20, 6, 1, 1⟩]
      ⟨"B", "APL 8.0", 1, 25, 5, 1, 1⟩ = true ∧
    is_Tier_Top
      [⟨"A", "APL 8.0", 1, 30, 1, 1, 1⟩, ⟨"B", "APL 8.0", 1, 25, 5, 1, 1⟩,
       ⟨"C", "APL 8.0", 1, 20, 6, 1, 1⟩]
      ⟨"B", "APL 8.0", 1, 25, 5, 1, 1⟩ = false := by
  constructor
  · simp only [isAmongTop3ByRanking, List.filter]
    norm_num
  · simp only [is_Tier_Top, tier_Min_Ranking, qmin, List.filter]
    norm_num [min_def]

/-- The base columns of a derived row are the row it was derived from. -/
theorem deriveRow_base (t : List BaseRow) (r : BaseRow) :
    (deriveRow t r).base = r := rfl

/-- Claim C9: the derivation pipeline is idempotent — re-deriving from
the base columns of its own output yields the identical table (all
derived columns included), because every derived column is a
deterministic function of the base columns alone. -/
theorem updated_df_idempotent (t : List BaseRow) :
    updated_df ((updated_df t).map (·.base)) = updated_df t := by
  have hbase : (updated_df t).map (·.base) = t := by
    unfold updated_df
    rw [List.map_map]
    have hcomp : ((fun fr => fr.base) ∘ deriveRow t) = id :=
      funext fun r => deriveRow_base t r
    rw [hcomp, List.map_id]
  rw [hbase]
